import Mathlib

/-
Verification of the contact-manager in src/task2.py against its
natural-language specification.

The Python program is shallowly embedded: each class and function of the
source is translated into an executable Lean definition with the same name
(`Phone.init` stands for `Phone.__init__`, and so on).  Python exceptions
are made explicit with `Except PyErr`; Python's in-place mutation of
records and of the `AddressBook` dict becomes explicit state passing; the
dict underlying `AddressBook` (an insertion-ordered Python dict) becomes
an association list in insertion order.  Strings are modelled over their
code points; character classifications (`str.isdigit`, `str.lower`,
`str.split`) are modelled on the ASCII fragment, extended where a claim
needs a documented non-ASCII behaviour of Python.
-/

/-- Python's `str.lower` applied to one character, on the ASCII fragment:
exactly Lean's `Char.toLower` (code points 65-90 are shifted by 32, all
others are returned unchanged), which matches CPython's behaviour on
ASCII. -/
def pyLowerChar (c : Char) : Char := c.toLower

/-- Python's `str.lower` (ASCII fragment): lower-case every character. -/
def pyLower (s : String) : String := ⟨s.data.map pyLowerChar⟩

/-- Python's `str.capitalize` (ASCII fragment): the first character is
upper-cased, the remaining characters are lower-cased. -/
def pyCapitalize (s : String) : String :=
  match s.data with
  | [] => ""
  | c :: rest => ⟨c.toUpper :: rest.map pyLowerChar⟩

/-- Python's `str.isdigit` test for one character.  In CPython this is true
for every code point of Unicode `Numeric_Type` Decimal or Digit, which is
strictly larger than the decimal digits: it also accepts, among others, the
superscript and subscript digits.  The model covers the ASCII decimal
digits together with the superscript digits U+00B9, U+00B2, U+00B3,
U+2070, U+2074..U+2079 and the subscript digits U+2080..U+2089; every
other code point appearing in this development is correctly classified as
a non-digit. -/
def pyIsDigitChar (c : Char) : Bool :=
  c.isDigit || c = '¹' || c = '²' || c = '³' ||
  c.toNat = 0x2070 || (0x2074 ≤ c.toNat && c.toNat ≤ 0x2079) ||
  (0x2080 ≤ c.toNat && c.toNat ≤ 0x2089)

/-- Python's `str.isdigit`: non-empty and every character is a digit. -/
def pyIsDigit (s : String) : Bool :=
  s ≠ "" && s.data.all pyIsDigitChar

/-- One pass over the characters for `pySplit`, carrying the reversed
current token. -/
def pySplitAux : List Char → List Char → List String
  | [], acc => if acc.isEmpty then [] else [String.mk acc.reverse]
  | c :: rest, acc =>
    if c.isWhitespace then
      if acc.isEmpty then pySplitAux rest []
      else String.mk acc.reverse :: pySplitAux rest []
    else pySplitAux rest (c :: acc)

/-- Python's no-argument `str.split` (ASCII fragment): split on runs of
whitespace, producing no empty tokens. -/
def pySplit (s : String) : List String :=
  pySplitAux s.data []

/-- The Python exceptions that the program can raise: `ValueError`,
`KeyError` and `IndexError` from the standard library, and the program's
own `PhoneValidationError` and `BirthdayError` (both direct subclasses of
`Exception`, NOT of `ValueError`). -/
inductive PyErr where
  | valueError (msg : String)
  | keyError (msg : String)
  | indexError (msg : String)
  | phoneValidationError (msg : String)
  | birthdayError (msg : String)
deriving DecidableEq

/-- The `Name` field class: `Name.__init__` raises `ValueError` on an
empty (falsy) string and otherwise stores the value verbatim. -/
structure Name where
  value : String
deriving DecidableEq

/-- Embeds `Name.__init__` (src/task2.py lines 14-18). -/
def Name.init (value : String) : Except PyErr Name :=
  if value = "" then .error (.valueError "Name cannot be empty")
  else .ok ⟨value⟩

/-- The `Phone` field class: a stored string (mutable, as `edit_phone`
later overwrites `value` directly without revalidation). -/
structure Phone where
  value : String
deriving DecidableEq

/-- Embeds `Phone.__init__` (src/task2.py lines 25-29):
`if not value.isdigit() or len(value) != 10: raise PhoneValidationError(...)`. -/
def Phone.init (value : String) : Except PyErr Phone :=
  if ¬ (pyIsDigit value = true) ∨ value.length ≠ 10 then
    .error (.phoneValidationError "Phone number must be a 10-digit number")
  else .ok ⟨value⟩

/-- Gregorian leap-year test, as in Python's `datetime`. -/
def isLeap (y : Nat) : Bool :=
  y % 4 == 0 && (y % 100 != 0 || y % 400 == 0)

/-- Number of days of month `m` of year `y`, as in Python's `datetime`. -/
def daysInMonth (y m : Nat) : Nat :=
  if m = 2 then (if isLeap y then 29 else 28)
  else if m = 4 ∨ m = 6 ∨ m = 9 ∨ m = 11 then 30
  else 31

/-- Numeric value of an ASCII digit character. -/
def charVal (c : Char) : Nat := c.toNat - 48

/-- One day or month field of `datetime.strptime(value, "%d.%m.%Y")`.
CPython's `_strptime` matches `%d` with the ordered-alternation regex
`3[01]|[12]\d|0[1-9]|[1-9]` and `%m` with `1[0-2]|0[1-9]|[1-9]`: one or
two digit characters, the two-digit forms being exactly the values
`1..31` (resp. `1..12`) with an optional leading zero.  The regex engine's
backtracking is resolved deterministically here: when the first two
characters are digits, only the two-digit alternatives can lead to an
overall match (the one-digit fallback would leave a digit where the
literal dot of the format must follow), and symmetrically; so the model
commits to two digits exactly when both characters are digits. -/
def parseField (maxVal : Nat) : List Char → Option (Nat × List Char)
  | c0 :: c1 :: rest =>
    if c0.isDigit && c1.isDigit then
      let v := 10 * charVal c0 + charVal c1
      if 1 ≤ v ∧ v ≤ maxVal then some (v, rest) else none
    else if c0.isDigit && 1 ≤ charVal c0 then some (charVal c0, c1 :: rest)
    else none
  | [c0] =>
    if c0.isDigit && 1 ≤ charVal c0 then some (charVal c0, [])
    else none
  | [] => none

/-- The literal dot of the format string `"%d.%m.%Y"`. -/
def parseDot : List Char → Option (List Char)
  | '.' :: rest => some rest
  | _ => none

/-- The `%Y` field of `strptime`: exactly four digit characters. -/
def parseYear4 : List Char → Option (Nat × List Char)
  | a :: b :: c :: d :: rest =>
    if a.isDigit && b.isDigit && c.isDigit && d.isDigit then
      some (1000 * charVal a + 100 * charVal b + 10 * charVal c + charVal d, rest)
    else none
  | _ => none

/-- Embeds `datetime.strptime(value, "%d.%m.%Y")` as used by the program:
`some (day, month, year)` when the whole string matches the format and
denotes a constructible `datetime` (strptime raises `ValueError` on
unconverted trailing data, on a year below `datetime.MINYEAR = 1`, and on
a day that does not exist in the given month and year). -/
def parseDMY (s : String) : Option (Nat × Nat × Nat) :=
  match parseField 31 s.data with
  | none => none
  | some (d, r1) =>
    match parseDot r1 with
    | none => none
    | some r2 =>
      match parseField 12 r2 with
      | none => none
      | some (m, r3) =>
        match parseDot r3 with
        | none => none
        | some r4 =>
          match parseYear4 r4 with
          | none => none
          | some (y, r5) =>
            if r5 = [] ∧ 1 ≤ y ∧ d ≤ daysInMonth y m then some (d, m, y)
            else none

/-- The `Birthday` field class: a stored string. -/
structure Birthday where
  value : String
deriving DecidableEq

/-- Embeds `Birthday.__init__` (src/task2.py lines 32-40): the value must
parse under `strptime(value, "%d.%m.%Y")`, otherwise a `ValueError` with
the program's message is raised. -/
def Birthday.init (value : String) : Except PyErr Birthday :=
  match parseDMY value with
  | some _ => .ok ⟨value⟩
  | none => .error (.valueError
      "Invalid date format for birthday. Birthday should be in the format DD.MM.YYYY")

/-- A `Record`: one contact's name, ordered phone list and optional
birthday (src/task2.py lines 43-47). -/
structure Record where
  name : Name
  phones : List Phone
  birthday : Option Birthday
deriving DecidableEq

/-- Embeds `Record.__init__`: `Name(name)` may raise, phones start empty,
no birthday. -/
def Record.init (name : String) : Except PyErr Record :=
  match Name.init name with
  | .ok n => .ok ⟨n, [], none⟩
  | .error e => .error e

/-- Embeds `Record.add_phone` (src/task2.py lines 49-54).  The source
wraps `Phone(phone); self.phones.append(...)` in `try/except ValueError`,
returning `str(e)` (a `some` result here) when a `ValueError` is caught
and `None` on success — but `Phone.__init__` raises
`PhoneValidationError`, which is not a `ValueError`, so that exception
propagates (the `.error` result here). -/
def Record.add_phone (r : Record) (phone : String) :
    Except PyErr (Record × Option String) :=
  match Phone.init phone with
  | .ok p => .ok ({ r with phones := r.phones ++ [p] }, none)
  | .error (.valueError m) => .ok (r, some m)
  | .error e => .error e

/-- Removes the first phone whose value is `v` (first match of the scan
in `Record.remove_phone`, then `list.remove` on that very object). -/
def removeFirstPhone : List Phone → String → List Phone
  | [], _ => []
  | p :: ps, v => if p.value = v then ps else p :: removeFirstPhone ps v

/-- Embeds `Record.remove_phone` (src/task2.py lines 56-60): removes the
first phone entry whose value equals `phone`; no-op when absent. -/
def Record.remove_phone (r : Record) (phone : String) : Record :=
  { r with phones := removeFirstPhone r.phones phone }

/-- Overwrites the value of the first phone equal to `old` with `new`,
exactly as the loop in `Record.edit_phone` mutates `phone_obj.value`. -/
def editFirstPhone : List Phone → String → String → List Phone
  | [], _, _ => []
  | p :: ps, old, new =>
    if p.value = old then ⟨new⟩ :: ps else p :: editFirstPhone ps old new

/-- Embeds `Record.edit_phone` (src/task2.py lines 62-66): in-place
overwrite of the first matching phone's value, with no validation of
`new_phone`; no-op when `old_phone` is not present. -/
def Record.edit_phone (r : Record) (old_phone new_phone : String) : Record :=
  { r with phones := editFirstPhone r.phones old_phone new_phone }

/-- Embeds `Record.add_birthday` (src/task2.py lines 68-74): constructs a
`Birthday` inside `try/except ValueError`; on success stores it and
returns "Birthday added.", on a caught `ValueError` returns its message.
`Birthday.__init__` raises only `ValueError`, so nothing propagates. -/
def Record.add_birthday (r : Record) (birthday : String) :
    Except PyErr (Record × String) :=
  match Birthday.init birthday with
  | .ok b => .ok ({ r with birthday := some b }, "Birthday added.")
  | .error (.valueError m) => .ok (r, m)
  | .error e => .error e

/-- Embeds `Record.find_phone` (src/task2.py lines 76-79). -/
def Record.find_phone (r : Record) (phone : String) : Option Phone :=
  r.phones.find? (fun p => p.value = phone)

/-- Sets key `k` to `v` in a Python dict modelled as an insertion-ordered
association list: an existing key keeps its position, a new key is
appended at the end. -/
def dictSet : List (String × Record) → String → Record → List (String × Record)
  | [], k, v => [(k, v)]
  | (k', v') :: rest, k, v =>
    if k' = k then (k', v) :: rest else (k', v') :: dictSet rest k v

/-- Python `dict.get`. -/
def dictGet : List (String × Record) → String → Option Record
  | [], _ => none
  | (k', v') :: rest, k => if k' = k then some v' else dictGet rest k

/-- Python `in` on a dict (and on a `UserDict`, whose `__contains__` is
`key in self.data`). -/
def dictContains (d : List (String × Record)) (k : String) : Bool :=
  (dictGet d k).isSome

/-- Python `del d[k]` on a present key. -/
def dictDelete : List (String × Record) → String → List (String × Record)
  | [], _ => []
  | (k', v') :: rest, k => if k' = k then rest else (k', v') :: dictDelete rest k

/-- The `AddressBook` (a `UserDict`): its `data` dict in insertion order. -/
structure AddressBook where
  data : List (String × Record)
deriving DecidableEq

/-- Embeds `AddressBook.add_record` (src/task2.py lines 88-89):
`self.data[record.name.value.lower()] = record`. -/
def AddressBook.add_record (book : AddressBook) (record : Record) : AddressBook :=
  ⟨dictSet book.data (pyLower record.name.value) record⟩

/-- Embeds `AddressBook.find` (src/task2.py lines 91-92):
`self.data.get(name.lower())`. -/
def AddressBook.find (book : AddressBook) (name : String) : Option Record :=
  dictGet book.data (pyLower name)

/-- Embeds `AddressBook.delete` (src/task2.py lines 94-96). -/
def AddressBook.delete (book : AddressBook) (name : String) : AddressBook :=
  if dictContains book.data (pyLower name) then ⟨dictDelete book.data (pyLower name)⟩
  else book

/-- A Python `datetime`: calendar date plus the time of day (microseconds
since midnight).  `datetime` values compare lexicographically by
(year, month, day, time). -/
structure PyDateTime where
  year : Nat
  month : Nat
  day : Nat
  tod : Nat
deriving DecidableEq

/-- Python `datetime` strict comparison (lexicographic). -/
def dtLt (a b : PyDateTime) : Bool :=
  a.year < b.year || (a.year == b.year &&
    (a.month < b.month || (a.month == b.month &&
      (a.day < b.day || (a.day == b.day && a.tod < b.tod)))))

/-- Python `datetime` non-strict comparison. -/
def dtLe (a b : PyDateTime) : Bool :=
  dtLt a b || a == b

/-- The calendar day after `d`, keeping the time of day. -/
def nextDay (d : PyDateTime) : PyDateTime :=
  if d.day < daysInMonth d.year d.month then { d with day := d.day + 1 }
  else if d.month < 12 then { d with month := d.month + 1, day := 1 }
  else { d with year := d.year + 1, month := 1, day := 1 }

/-- Python `datetime + timedelta(days=n)`. -/
def addDays : Nat → PyDateTime → PyDateTime
  | 0, d => d
  | n + 1, d => addDays n (nextDay d)

/-- The loop body of `AddressBook.get_birthdays_per_week` over the
records, in insertion order.  For a record with a birthday the source runs
`strptime(record.birthday.value, "%d.%m.%Y")` (a `ValueError` on an
unparseable value) and `birthday_date.replace(year=today.year)` (a
`ValueError` when that day does not exist in that month of the current
year, e.g. Feb 29 in a non-leap year); neither call is guarded, so these
exceptions propagate. -/
def birthdaysAux (now next_week : PyDateTime) :
    List (String × Record) → Except PyErr (List (String × String))
  | [] => .ok []
  | (_, record) :: rest =>
    match record.birthday with
    | none => birthdaysAux now next_week rest
    | some b =>
      match parseDMY b.value with
      | none => .error (.valueError "time data does not match format")
      | some (d, m, _) =>
        if d ≤ daysInMonth now.year m then
          let bd : PyDateTime := ⟨now.year, m, d, 0⟩
          match birthdaysAux now next_week rest with
          | .ok tail =>
            .ok (if dtLt now bd && dtLe bd next_week then
                   (record.name.value, b.value) :: tail
                 else tail)
          | .error e => .error e
        else .error (.valueError "day is out of range for month")

/-- Embeds `AddressBook.get_birthdays_per_week` (src/task2.py lines
98-112), with `datetime.now()` made an explicit parameter `now`. -/
def AddressBook.get_birthdays_per_week (book : AddressBook) (now : PyDateTime) :
    Except PyErr (List (String × String)) :=
  birthdaysAux now (addDays 7 now) book.data

/-- Embeds the `input_error` decorator (src/task2.py lines 115-130): the
wrapped handler's exceptions are translated into user-facing strings.
Exactly the five exception classes of `PyErr` are caught, which covers
everything a decorated handler can raise. -/
def input_error (r : Except PyErr String) : String :=
  match r with
  | .ok s => s
  | .error (.valueError _) => "Give me name and phone please."
  | .error (.keyError _) => "Enter user name."
  | .error (.indexError _) => "Give me name and phone please."
  | .error (.phoneValidationError _) => "Phone number must be a 10-digit number"
  | .error (.birthdayError _) => "Invalid date format for birthday"

/-- Embeds `add_contact` (src/task2.py lines 139-151), decorator included.
Note that the duplicate check `if name not in contacts` uses the RAW
user-typed name via `UserDict.__contains__`, while keys are stored
lower-cased; the record itself is built from `name.lower()`.  The
unpacking `name, phone = args` raises `ValueError` when `len(args) > 2`. -/
def add_contact (args : List String) (contacts : AddressBook) :
    String × AddressBook :=
  let step : Except PyErr String × AddressBook :=
    if args.length < 2 then (.ok "Give me name and phone please.", contacts)
    else
      match args with
      | [name, phone] =>
        if ¬ (dictContains contacts.data name = true) then
          match Record.init (pyLower name) with
          | .error e => (.error e, contacts)
          | .ok record =>
            match Record.add_phone record phone with
            | .error e => (.error e, contacts)
            | .ok (record1, _) => (.ok "Contact added.", contacts.add_record record1)
        else (.ok "Contact already exists. Use 'change' to update.", contacts)
      | _ => (.error (.valueError "too many values to unpack"), contacts)
  (input_error step.1, step.2)

/-- Embeds `change_contact` (src/task2.py lines 154-171), decorator
included.  The fetched record aliases the dict entry, so the phone
removed before `add_phone` stays removed even when `add_phone` raises
`PhoneValidationError` (which the decorator, not the dead
`message` branch, turns into the user-facing message). -/
def change_contact (args : List String) (contacts : AddressBook) :
    String × AddressBook :=
  let step : Except PyErr String × AddressBook :=
    if args.length < 2 then (.ok "Give me name and phone please.", contacts)
    else
      match args with
      | [name0, phone] =>
        let name := pyLower name0
        if dictContains contacts.data name = true then
          match dictGet contacts.data (pyLower name) with
          | none => (.error (.keyError name), contacts)
          | some record =>
            let record1 :=
              match record.phones with
              | [] => record
              | p :: _ => record.remove_phone p.value
            match Record.add_phone record1 phone with
            | .ok (record2, some m) => (.ok m, ⟨dictSet contacts.data name record2⟩)
            | .ok (record2, none) =>
              (.ok "Contact updated.", ⟨dictSet contacts.data name record2⟩)
            | .error e => (.error e, ⟨dictSet contacts.data name record1⟩)
        else (.ok "Contact not found.", contacts)
      | _ => (.error (.valueError "too many values to unpack"), contacts)
  (input_error step.1, step.2)

/-- Embeds `show_phone` (src/task2.py lines 174-184). -/
def show_phone (args : List String) (contacts : AddressBook) :
    String × AddressBook :=
  let step : Except PyErr String :=
    match args with
    | [] => .ok "Give me name and phone please."
    | a0 :: _ =>
      let name := pyLower a0
      if dictContains contacts.data name = true then
        match dictGet contacts.data (pyLower name) with
        | none => .error (.keyError name)
        | some record =>
          .ok (String.intercalate "; " (record.phones.map (fun p => p.value)))
      else .ok "Contact not found."
  (input_error step, contacts)

/-- Embeds `show_all` (src/task2.py lines 187-197): `args` is ignored by
the source as well. -/
def show_all (args : List String) (contacts : AddressBook) :
    String × AddressBook :=
  let step : Except PyErr String :=
    if contacts.data = [] then .ok "No contacts found."
    else
      .ok (String.intercalate "\n" (contacts.data.map (fun kr =>
        pyCapitalize kr.1 ++ ": " ++
          String.intercalate "; " (kr.2.phones.map (fun p => p.value)))))
  (input_error step, contacts)

/-- Embeds the `remove_phone` HANDLER (src/task2.py lines 200-210, the
`remove` command), which deletes a whole contact via
`del contacts.data[name]`. -/
def remove_phone (args : List String) (contacts : AddressBook) :
    String × AddressBook :=
  match args with
  | [] =>
    (input_error (.ok "Give me the name of the contact you want to remove."), contacts)
  | a0 :: _ =>
    let name := pyLower a0
    if dictContains contacts.data name = true then
      (input_error (.ok "Contact removed."), ⟨dictDelete contacts.data name⟩)
    else (input_error (.ok "Contact not found."), contacts)

/-- Embeds the `add_birthday` HANDLER (src/task2.py lines 213-225),
decorator included; the fetched record aliases the dict entry. -/
def add_birthday (args : List String) (contacts : AddressBook) :
    String × AddressBook :=
  let step : Except PyErr String × AddressBook :=
    if args.length < 2 then
      (.ok "Give me name and date of birth in the format DD.MM.YYYY.", contacts)
    else
      match args with
      | [name0, birthday] =>
        let name := pyLower name0
        if dictContains contacts.data name = true then
          match dictGet contacts.data (pyLower name) with
          | none => (.error (.keyError name), contacts)
          | some record =>
            match Record.add_birthday record birthday with
            | .ok (record1, result) => (.ok result, ⟨dictSet contacts.data name record1⟩)
            | .error e => (.error e, ⟨dictSet contacts.data name record⟩)
        else (.ok "Contact not found.", contacts)
      | _ => (.error (.valueError "too many values to unpack"), contacts)
  (input_error step.1, step.2)

/-- Embeds `show_birthday` (src/task2.py lines 228-241). -/
def show_birthday (args : List String) (contacts : AddressBook) :
    String × AddressBook :=
  let step : Except PyErr String :=
    match args with
    | [] => .ok "Give me name and date of birth in the format DD.MM.YYYY."
    | a0 :: _ =>
      let name := pyLower a0
      if dictContains contacts.data name = true then
        match dictGet contacts.data (pyLower name) with
        | none => .error (.keyError name)
        | some record =>
          match record.birthday with
          | some b => .ok b.value
          | none => .ok "Birthday not set."
      else .ok "Contact not found."
  (input_error step, contacts)

/-- Embeds `parse_input` (src/task2.py lines 133-136):
`cmd, *args = user_input.split()` raises `ValueError` when the split of
the line is empty (nothing to unpack); `cmd.strip()` is the identity on a
token produced by `split()`. -/
def parse_input (user_input : String) : Except PyErr (String × List String) :=
  match pySplit user_input with
  | [] => .error (.valueError "not enough values to unpack")
  | cmd :: args => .ok (pyLower cmd, args)

/-- The block printed by the `birthdays` branch of `main`: a header line
followed by one line per upcoming birthday, or a single no-birthdays
line. -/
def renderBirthdays (l : List (String × String)) : String :=
  if l = [] then "No upcoming birthdays in the next week."
  else "Upcoming birthdays in the next week:\n" ++
    String.intercalate "\n" (l.map (fun nb => pyCapitalize nb.1 ++ " - " ++ nb.2))

/-- One iteration of the REPL loop of `main` (src/task2.py lines 271-311),
with the clock explicit and the pickle persistence (pure I/O) out of
scope: parses the line, dispatches to the handler, and yields the printed
block, the updated book, and whether the loop breaks.  `.error` is an
exception escaping the loop body and crashing the program. -/
def processLine (contacts : AddressBook) (now : PyDateTime) (user_input : String) :
    Except PyErr (String × AddressBook × Bool) :=
  match parse_input user_input with
  | .error e => .error e
  | .ok (command, args) =>
    if command = "close" ∨ command = "exit" then .ok ("Good bye!", contacts, true)
    else if command = "hello" then .ok ("How can I help you?", contacts, false)
    else if command = "add" then
      let r := add_contact args contacts
      .ok (r.1, r.2, false)
    else if command = "change" then
      let r := change_contact args contacts
      .ok (r.1, r.2, false)
    else if command = "phone" then
      let r := show_phone args contacts
      .ok (r.1, r.2, false)
    else if command = "all" then
      let r := show_all args contacts
      .ok (r.1, r.2, false)
    else if command = "remove" then
      let r := remove_phone args contacts
      .ok (r.1, r.2, false)
    else if command = "add-birthday" then
      let r := add_birthday args contacts
      .ok (r.1, r.2, false)
    else if command = "show-birthday" then
      let r := show_birthday args contacts
      .ok (r.1, r.2, false)
    else if command = "birthdays" then
      match contacts.get_birthdays_per_week now with
      | .ok upcoming => .ok (renderBirthdays upcoming, contacts, false)
      | .error e => .error e
    else .ok ("Invalid command.", contacts, false)

/-- Reading back a valid code point from `Char.ofNat`. -/
theorem toNat_ofNat_valid (n : Nat) (h : n.isValidChar) : (Char.ofNat n).toNat = n := by
  rw [Char.ofNat, dif_pos h]
  rfl

/-- Lower-casing a character twice is the same as once. -/
theorem pyLowerChar_idem (c : Char) : pyLowerChar (pyLowerChar c) = pyLowerChar c := by
  unfold pyLowerChar Char.toLower
  by_cases h : c.toNat ≥ 65 ∧ c.toNat ≤ 90
  · rw [if_pos h]
    have hv : (c.toNat + 32).isValidChar := Or.inl (by omega)
    rw [toNat_ofNat_valid _ hv]
    have h2 : ¬ (c.toNat + 32 ≥ 65 ∧ c.toNat + 32 ≤ 90) := by omega
    rw [if_neg h2]
  · rw [if_neg h, if_neg h]

/-- Lower-casing a string twice is the same as once. -/
theorem pyLower_idem (s : String) : pyLower (pyLower s) = pyLower s := by
  unfold pyLower
  refine congrArg String.mk ?_
  rw [List.map_map]
  exact List.map_congr_left (fun c _ => pyLowerChar_idem c)

/-- Setting a key and reading it back. -/
theorem dictGet_dictSet_self (d : List (String × Record)) (k : String) (v : Record) :
    dictGet (dictSet d k v) k = some v := by
  induction d with
  | nil => simp [dictSet, dictGet]
  | cons kv rest ih =>
    by_cases h : kv.1 = k
    · simp [dictSet, dictGet, h]
    · simp only [dictSet, dictGet, h, if_false, if_neg h]
      exact ih

/-- Every entry of `dictSet d k v` is either the new binding or one of the
old entries. -/
theorem mem_dictSet (d : List (String × Record)) (k : String) (v : Record)
    (k' : String) (v' : Record) (h : (k', v') ∈ dictSet d k v) :
    (k' = k ∧ v' = v) ∨ (k', v') ∈ d := by
  induction d with
  | nil =>
    simp only [dictSet, List.mem_singleton] at h
    exact Or.inl (by simpa [Prod.ext_iff] using h)
  | cons kv rest ih =>
    by_cases hk : kv.1 = k
    · rw [dictSet, if_pos hk] at h
      rcases List.mem_cons.mp h with h1 | h1
      · left
        have : k' = kv.1 ∧ v' = v := by simpa [Prod.ext_iff] using h1
        exact ⟨this.1.trans hk, this.2⟩
      · right
        exact List.mem_cons_of_mem _ h1
    · rw [dictSet, if_neg hk] at h
      rcases List.mem_cons.mp h with h1 | h1
      · right
        exact h1 ▸ List.mem_cons_self _ _
      · rcases ih h1 with h2 | h2
        · exact Or.inl h2
        · exact Or.inr (List.mem_cons_of_mem _ h2)

/-- Claim C1 (code bug demonstration): with a contact stored under the
key "alice", the add handler invoked with the case variant "Alice" does
NOT reject: the membership test `name not in contacts` uses the raw name
while keys are lower-cased, so it answers false, a fresh record is built
and `add_record` silently overwrites the stored one.  The handler reports
"Contact added." and the previous record (with its phone) is lost. -/
theorem c1_add_contact_overwrites_case_variant :
    add_contact ["Alice", "0123456789"]
        ⟨[("alice", ⟨⟨"alice"⟩, [⟨"1112223333"⟩], none⟩)]⟩
      = ("Contact added.",
         ⟨[("alice", ⟨⟨"alice"⟩, [⟨"0123456789"⟩], none⟩)]⟩) := by
  rfl

/-- Claim C2 (code bug demonstration): `Record.add_phone` on the invalid
value "123" does not return the failure message as a string result — it
raises `PhoneValidationError` past its boundary, because its
`except ValueError` clause does not match `PhoneValidationError`, which
subclasses `Exception` directly. -/
theorem c2_add_phone_raises_past_boundary :
    Record.add_phone ⟨⟨"bob"⟩, [], none⟩ "123"
      = .error (.phoneValidationError "Phone number must be a 10-digit number") := by
  rfl

/-- Claim C7: after `add_record`, `find` with any case variant of the
record's name (any string with the same lower-casing) returns that very
record; and `find` on a name whose lower-cased form is not a key returns
nothing. -/
theorem c7_add_record_find_case_variant (book : AddressBook) (record : Record)
    (variant : String)
    (h : pyLower variant = pyLower record.name.value) :
    (book.add_record record).find variant = some record ∧
    (∀ name : String, dictContains book.data (pyLower name) = false →
      book.find name = none) := by
  constructor
  · unfold AddressBook.find AddressBook.add_record
    rw [h]
    exact dictGet_dictSet_self _ _ _
  · intro name hn
    unfold AddressBook.find
    unfold dictContains at hn
    cases hg : dictGet book.data (pyLower name) with
    | none => rfl
    | some r => rw [hg] at hn; simp at hn

/-- Witness for C7 at a concrete book, record and case variant. -/
theorem c7_witness :
    AddressBook.find
        (AddressBook.add_record ⟨[]⟩ ⟨⟨"Alice"⟩, [⟨"0123456789"⟩], none⟩) "ALICE"
      = some ⟨⟨"Alice"⟩, [⟨"0123456789"⟩], none⟩ ∧
    AddressBook.find (⟨[]⟩ : AddressBook) "bob" = none := by
  have h := c7_add_record_find_case_variant ⟨[]⟩ ⟨⟨"Alice"⟩, [⟨"0123456789"⟩], none⟩
    "ALICE" (by rfl)
  exact ⟨h.1, h.2 "bob" (by rfl)⟩

/-- When no phone matches, `editFirstPhone` is the identity. -/
theorem editFirstPhone_not_mem (ps : List Phone) (old new : String)
    (h : ∀ p ∈ ps, p.value ≠ old) : editFirstPhone ps old new = ps := by
  induction ps with
  | nil => rfl
  | cons p ps ih =>
    have hp : p.value ≠ old := h p (List.mem_cons_self p ps)
    simp only [editFirstPhone, if_neg hp]
    rw [ih (fun q hq => h q (List.mem_cons_of_mem p hq))]

/-- When position `i` holds the first phone matching `old`,
`editFirstPhone` overwrites exactly that position. -/
theorem editFirstPhone_eq_set (old new : String) (ps : List Phone) :
    ∀ i (hi : i < ps.length),
      (ps.get ⟨i, hi⟩).value = old →
      (∀ j (hj : j < i), (ps.get ⟨j, Nat.lt_trans hj hi⟩).value ≠ old) →
      editFirstPhone ps old new = ps.set i ⟨new⟩ := by
  induction ps with
  | nil => intro i hi; exact absurd hi (by simp)
  | cons p ps ih =>
    intro i hi hval hfirst
    cases i with
    | zero =>
      have : p.value = old := hval
      simp only [editFirstPhone, if_pos this, List.set]
    | succ n =>
      have h0 : p.value ≠ old := hfirst 0 (Nat.succ_pos n)
      have hn : n < ps.length := Nat.lt_of_succ_lt_succ hi
      simp only [editFirstPhone, if_neg h0, List.set]
      rw [ih n hn hval (fun j hj => hfirst (j + 1) (Nat.succ_lt_succ hj))]

/-- Claim C8: `edit_phone` overwrites, in place and with no validation of
the new string, the value of the first phone equal to `old_phone`,
leaving name and birthday untouched; and it is a no-op when no phone
matches. -/
theorem c8_edit_phone_first_match (r : Record) (old_phone new_phone : String) :
    ((Record.edit_phone r old_phone new_phone).name = r.name ∧
     (Record.edit_phone r old_phone new_phone).birthday = r.birthday) ∧
    (∀ i (hi : i < r.phones.length),
        (r.phones.get ⟨i, hi⟩).value = old_phone →
        (∀ j (hj : j < i), (r.phones.get ⟨j, Nat.lt_trans hj hi⟩).value ≠ old_phone) →
        (Record.edit_phone r old_phone new_phone).phones
          = r.phones.set i ⟨new_phone⟩) ∧
    ((∀ p ∈ r.phones, p.value ≠ old_phone) →
        Record.edit_phone r old_phone new_phone = r) := by
  refine ⟨⟨rfl, rfl⟩, ?_, ?_⟩
  · intro i hi hval hfirst
    exact editFirstPhone_eq_set old_phone new_phone r.phones i hi hval hfirst
  · intro h
    unfold Record.edit_phone
    rw [editFirstPhone_not_mem r.phones old_phone new_phone h]

/-- Witness for C8: the first phone's value is overwritten with the
string "abc", which is not a well-formed phone, and is stored anyway. -/
theorem c8_witness :
    (Record.edit_phone ⟨⟨"bob"⟩, [⟨"1112223333"⟩, ⟨"2223334444"⟩], none⟩
        "1112223333" "abc").phones = [⟨"abc"⟩, ⟨"2223334444"⟩] := by
  have h := (c8_edit_phone_first_match
      ⟨⟨"bob"⟩, [⟨"1112223333"⟩, ⟨"2223334444"⟩], none⟩ "1112223333" "abc").2.1
    0 (by decide) (by rfl) (fun j hj => absurd hj (Nat.not_lt_zero j))
  exact h.trans rfl

/-- Claim C9: for an existing contact whose record has at least one
phone, `change` with a phone string failing validation first removes the
record's first phone (via the aliased dict entry), then `add_phone`
raises `PhoneValidationError`, which the decorator turns into the
phone-validation message — leaving the record without its first phone. -/
theorem c9_change_contact_loses_first_phone (book : AddressBook)
    (name0 phone : String) (r : Record) (p : Phone) (ps : List Phone)
    (hget : dictGet book.data (pyLower name0) = some r)
    (hphones : r.phones = p :: ps)
    (hbad : ¬ (pyIsDigit phone = true ∧ phone.length = 10)) :
    change_contact [name0, phone] book
      = ("Phone number must be a 10-digit number",
         ⟨dictSet book.data (pyLower name0) { r with phones := ps }⟩) := by
  have hlen : ¬ ([name0, phone].length < 2) := by simp
  have hcontains : dictContains book.data (pyLower name0) = true := by
    unfold dictContains
    rw [hget]
    rfl
  have hget2 : dictGet book.data (pyLower (pyLower name0)) = some r := by
    rw [pyLower_idem]
    exact hget
  have hinitbad : Phone.init phone
      = .error (.phoneValidationError "Phone number must be a 10-digit number") := by
    unfold Phone.init
    rw [if_pos]
    by_contra hcon
    push_neg at hcon
    exact hbad hcon
  have hremove : Record.remove_phone r p.value = { r with phones := ps } := by
    unfold Record.remove_phone
    rw [hphones]
    simp [removeFirstPhone]
  unfold change_contact
  rw [if_neg hlen]
  simp only [hcontains, if_pos, hget2, hphones, hremove, Record.add_phone, hinitbad,
    input_error]

/-- Witness for C9: contact "bob" has two phones; `change bob 123` answers
the phone-validation message and the first phone is gone for good. -/
theorem c9_witness :
    change_contact ["Bob", "123"]
        ⟨[("bob", ⟨⟨"bob"⟩, [⟨"1112223333"⟩, ⟨"9998887777"⟩], none⟩)]⟩
      = ("Phone number must be a 10-digit number",
         ⟨[("bob", ⟨⟨"bob"⟩, [⟨"9998887777"⟩], none⟩)]⟩) := by
  have h := c9_change_contact_loses_first_phone
    ⟨[("bob", ⟨⟨"bob"⟩, [⟨"1112223333"⟩, ⟨"9998887777"⟩], none⟩)]⟩
    "Bob" "123" ⟨⟨"bob"⟩, [⟨"1112223333"⟩, ⟨"9998887777"⟩], none⟩
    ⟨"1112223333"⟩ [⟨"9998887777"⟩] (by rfl) (by rfl) (by decide)
  exact h.trans rfl

/-- The address book obtained by replaying a list of argument lists
through the add handler, starting from the empty book. -/
def runAdds (argLists : List (List String)) : AddressBook :=
  argLists.foldl (fun book args => (add_contact args book).2) ⟨[]⟩


/-- One `add` invocation preserves the invariant that every stored record
carries exactly its key as name, already lower-cased. -/
theorem add_contact_preserves_lowercase_inv (args : List String) (book : AddressBook)
    (h : ∀ k r, (k, r) ∈ book.data → r.name.value = k ∧ pyLower k = k) :
    ∀ k r, (k, r) ∈ (add_contact args book).2.data →
      r.name.value = k ∧ pyLower k = k := by
  intro k r hmem
  simp only [add_contact] at hmem
  split at hmem
  · exact h k r hmem
  · split at hmem
    · rename_i name phone hlen
      split at hmem
      · rename_i hnc
        split at hmem
        · exact h k r hmem
        · rename_i record heq
          split at hmem
          · exact h k r hmem
          · rename_i pr record1 snd heq2
            have hname : record.name.value = pyLower name := by
              unfold Record.init at heq
              cases hni : Name.init (pyLower name) with
              | ok n =>
                simp only [hni] at heq
                cases heq
                have hn : n = ⟨pyLower name⟩ := by
                  unfold Name.init at hni
                  split at hni
                  · cases hni
                  · cases hni
                    rfl
                rw [hn]
              | error e =>
                simp only [hni] at heq
                cases heq
            have hname1 : record1.name.value = pyLower name := by
              unfold Record.add_phone at heq2
              split at heq2
              · cases heq2
                exact hname
              · cases heq2
                exact hname
              · cases heq2
            unfold AddressBook.add_record at hmem
            rcases mem_dictSet book.data (pyLower record1.name.value) record1 k r hmem with
              ⟨hk, hr⟩ | hold
            · subst hk
              subst hr
              have hk2 : pyLower r.name.value = r.name.value := by
                rw [hname1]
                exact pyLower_idem name
              refine ⟨hk2.symm, ?_⟩
              rw [hk2]
              exact hk2
            · exact h k r hold
      · exact h k r hmem
    · exact h k r hmem

/-- Claim C10: in an address book populated only through the add handler,
every stored record's name equals its mapping key, and that key is
already lower-cased — the user's original casing survives nowhere in the
state. -/
theorem c10_add_handler_stores_lowercased_names (argLists : List (List String))
    (k : String) (r : Record) (hmem : (k, r) ∈ (runAdds argLists).data) :
    r.name.value = k ∧ pyLower k = k := by
  unfold runAdds at hmem
  suffices hgen : ∀ (ls : List (List String)) (book : AddressBook),
      (∀ k' r', (k', r') ∈ book.data → r'.name.value = k' ∧ pyLower k' = k') →
      ∀ k' r', (k', r') ∈ (ls.foldl (fun b a => (add_contact a b).2) book).data →
        r'.name.value = k' ∧ pyLower k' = k' by
    exact hgen argLists ⟨[]⟩ (by intro k' r' h'; simp at h') k r hmem
  intro ls
  induction ls with
  | nil =>
    intro book hb k' r' hm
    exact hb k' r' hm
  | cons a as ih =>
    intro book hb k' r' hm
    exact ih ((add_contact a book).2)
      (add_contact_preserves_lowercase_inv a book hb) k' r' hm

/-- Witness for C10 after one `add Bob 1234567890`: the stored key is
"bob", the stored name is "bob", and "bob" is its own lower-casing. -/
theorem c10_witness :
    ((⟨⟨"bob"⟩, [⟨"1234567890"⟩], none⟩ : Record).name.value = "bob") ∧
    pyLower "bob" = "bob" := by
  exact c10_add_handler_stores_lowercased_names [["Bob", "1234567890"]]
    "bob" ⟨⟨"bob"⟩, [⟨"1234567890"⟩], none⟩ (by decide)

/-- An ASCII decimal digit passes Python's `isdigit` test. -/
theorem pyIsDigitChar_of_isDigit (c : Char) (h : c.isDigit = true) :
    pyIsDigitChar c = true := by
  unfold pyIsDigitChar
  rw [h]
  rfl

/-- Claim C4 (amended): Phone construction succeeds, storing the value
verbatim, on every string of exactly 10 ASCII decimal digits; and it
succeeds exactly on the strings of length 10 all of whose characters pass
Python's `str.isdigit` — a classification that also accepts non-decimal
Unicode digits, so acceptance is NOT limited to decimal digits. -/
theorem c4_phone_validation (s : String) :
    (s.length = 10 → s.data.all Char.isDigit = true → Phone.init s = .ok ⟨s⟩) ∧
    ((∃ p, Phone.init s = .ok p) ↔ (pyIsDigit s = true ∧ s.length = 10)) := by
  have hmain : ∀ t : String, (∃ p, Phone.init t = .ok p) ↔
      (pyIsDigit t = true ∧ t.length = 10) := by
    intro t
    unfold Phone.init
    by_cases hc : ¬ (pyIsDigit t = true) ∨ t.length ≠ 10
    · rw [if_pos hc]
      constructor
      · intro ⟨p, hp⟩
        cases hp
      · intro hcon
        rcases hc with hc | hc
        · exact absurd hcon.1 hc
        · exact absurd hcon.2 hc
    · rw [if_neg hc]
      push_neg at hc
      exact ⟨fun _ => ⟨hc.1, hc.2⟩, fun _ => ⟨⟨t⟩, rfl⟩⟩
  refine ⟨?_, hmain s⟩
  intro hlen hall
  have hne : s ≠ "" := by
    intro he
    rw [he] at hlen
    simp at hlen
  have hdig : pyIsDigit s = true := by
    unfold pyIsDigit
    rw [Bool.and_eq_true]
    refine ⟨by simpa using hne, ?_⟩
    rw [List.all_eq_true] at hall ⊢
    intro c hcm
    exact pyIsDigitChar_of_isDigit c (hall c hcm)
  unfold Phone.init
  rw [if_neg]
  push_neg
  exact ⟨by simp [hdig], hlen⟩

/-- Witness for C4 at the all-decimal string "0123456789". -/
theorem c4_witness : Phone.init "0123456789" = .ok ⟨"0123456789"⟩ := by
  exact (c4_phone_validation "0123456789").1 (by decide) (by decide)

/-- Counterexample to C4 as stated: ten superscript-two characters are
not decimal digits, yet `Phone.__init__` accepts them, because Python's
`str.isdigit` is true on superscript digits; so not every non-decimal
string is rejected. -/
theorem c4_counterexample :
    Phone.init "²²²²²²²²²²" = .ok ⟨"²²²²²²²²²²"⟩ ∧
    "²²²²²²²²²²".data.all Char.isDigit = false := by
  exact ⟨rfl, rfl⟩

/-- No month has more than 31 days. -/
theorem daysInMonth_le (y m : Nat) : daysInMonth y m ≤ 31 := by
  unfold daysInMonth
  split
  · split <;> omega
  · split <;> omega

/-- The character of a digit below ten is an ASCII digit. -/
theorem digitChar_isDigit (k : Nat) (h : k < 10) : (Nat.digitChar k).isDigit = true := by
  interval_cases k <;> decide

/-- The numeric value of the character of a digit below ten. -/
theorem charVal_digitChar (k : Nat) (h : k < 10) : charVal (Nat.digitChar k) = k := by
  interval_cases k <;> decide

/-- Zero-padded two-digit rendering, as in the spec's DD.MM shape. -/
def pad2 (n : Nat) : String :=
  ⟨[Nat.digitChar (n / 10), Nat.digitChar (n % 10)]⟩

/-- Zero-padded four-digit rendering, as in the spec's YYYY shape. -/
def pad4 (n : Nat) : String :=
  ⟨[Nat.digitChar (n / 1000), Nat.digitChar (n / 100 % 10),
    Nat.digitChar (n / 10 % 10), Nat.digitChar (n % 10)]⟩

/-- A date written as two-digit day, dot, two-digit month, dot, four-digit
year — the DD.MM.YYYY shape named by the spec. -/
def fmtDMY (d m y : Nat) : String :=
  pad2 d ++ "." ++ pad2 m ++ "." ++ pad4 y

/-- The field parser consumes a two-digit field whose value is in range. -/
theorem parseField_two_digits (maxVal v : Nat) (rest : List Char)
    (h1 : 1 ≤ v) (h2 : v ≤ maxVal) (h99 : v ≤ 99) :
    parseField maxVal (Nat.digitChar (v / 10) :: Nat.digitChar (v % 10) :: rest)
      = some (v, rest) := by
  have hq : v / 10 < 10 := by omega
  have hr : v % 10 < 10 := by omega
  have hv : 10 * charVal (Nat.digitChar (v / 10)) + charVal (Nat.digitChar (v % 10))
      = v := by
    rw [charVal_digitChar _ hq, charVal_digitChar _ hr]
    omega
  simp only [parseField, digitChar_isDigit _ hq, digitChar_isDigit _ hr,
    Bool.and_self, if_true, hv]
  rw [if_pos ⟨h1, h2⟩]

/-- The year parser consumes four digit characters. -/
theorem parseYear4_digits (y : Nat) (rest : List Char) (hy : y ≤ 9999) :
    parseYear4 (Nat.digitChar (y / 1000) :: Nat.digitChar (y / 100 % 10) ::
        Nat.digitChar (y / 10 % 10) :: Nat.digitChar (y % 10) :: rest)
      = some (y, rest) := by
  have ha : y / 1000 < 10 := by omega
  have hb : y / 100 % 10 < 10 := by omega
  have hc : y / 10 % 10 < 10 := by omega
  have hd : y % 10 < 10 := by omega
  have hv : 1000 * charVal (Nat.digitChar (y / 1000))
      + 100 * charVal (Nat.digitChar (y / 100 % 10))
      + 10 * charVal (Nat.digitChar (y / 10 % 10))
      + charVal (Nat.digitChar (y % 10)) = y := by
    rw [charVal_digitChar _ ha, charVal_digitChar _ hb, charVal_digitChar _ hc,
      charVal_digitChar _ hd]
    omega
  simp only [parseYear4, digitChar_isDigit _ ha, digitChar_isDigit _ hb,
    digitChar_isDigit _ hc, digitChar_isDigit _ hd, Bool.and_self, if_true, hv]

/-- The strptime model accepts every DD.MM.YYYY rendering of a valid
calendar date and recovers day, month and year. -/
theorem parseDMY_fmt (d m y : Nat) (hd1 : 1 ≤ d) (hd : d ≤ daysInMonth y m)
    (hm1 : 1 ≤ m) (hm : m ≤ 12) (hy1 : 1 ≤ y) (hy : y ≤ 9999) :
    parseDMY (fmtDMY d m y) = some (d, m, y) := by
  have hd31 : d ≤ 31 := le_trans hd (daysInMonth_le y m)
  have hdot : (".").data = ['.'] := rfl
  have hdata : (fmtDMY d m y).data
      = Nat.digitChar (d / 10) :: Nat.digitChar (d % 10) :: '.' ::
        Nat.digitChar (m / 10) :: Nat.digitChar (m % 10) :: '.' ::
        Nat.digitChar (y / 1000) :: Nat.digitChar (y / 100 % 10) ::
        Nat.digitChar (y / 10 % 10) :: Nat.digitChar (y % 10) :: [] := by
    simp [fmtDMY, pad2, pad4, String.data_append, hdot]
  have e1 := parseField_two_digits 31 d
    ('.' :: Nat.digitChar (m / 10) :: Nat.digitChar (m % 10) :: '.' ::
      Nat.digitChar (y / 1000) :: Nat.digitChar (y / 100 % 10) ::
      Nat.digitChar (y / 10 % 10) :: Nat.digitChar (y % 10) :: [])
    hd1 hd31 (by omega)
  have e2 := parseField_two_digits 12 m
    ('.' :: Nat.digitChar (y / 1000) :: Nat.digitChar (y / 100 % 10) ::
      Nat.digitChar (y / 10 % 10) :: Nat.digitChar (y % 10) :: [])
    hm1 hm (by omega)
  have e3 := parseYear4_digits y [] hy
  unfold parseDMY
  rw [hdata]
  simp only [e1, e2, e3, parseDot]
  rw [if_pos ⟨trivial, hy1, hd⟩]

/-- Claim C5 (amended): Birthday construction succeeds for every valid
calendar date in zero-padded DD.MM.YYYY form and fails for impossible
calendar dates such as "30.02.2024"; but the wrong-width rendering
"1.1.2024" is NOT rejected — strptime's `%d` and `%m` accept one digit,
so it is parsed as 1 January 2024 and accepted. -/
theorem c5_birthday_validation (d m y : Nat) :
    (1 ≤ d → d ≤ daysInMonth y m → 1 ≤ m → m ≤ 12 → 1 ≤ y → y ≤ 9999 →
      Birthday.init (fmtDMY d m y) = .ok ⟨fmtDMY d m y⟩) ∧
    Birthday.init "30.02.2024" = .error (.valueError
      "Invalid date format for birthday. Birthday should be in the format DD.MM.YYYY") ∧
    Birthday.init "1.1.2024" = .ok ⟨"1.1.2024"⟩ := by
  refine ⟨?_, rfl, rfl⟩
  intro hd1 hd hm1 hm hy1 hy
  unfold Birthday.init
  rw [parseDMY_fmt d m y hd1 hd hm1 hm hy1 hy]

/-- Witness for C5 at the valid date 15 June 1990. -/
theorem c5_witness : Birthday.init "15.06.1990" = .ok ⟨"15.06.1990"⟩ := by
  exact (c5_birthday_validation 15 6 1990).1 (by decide) (by decide) (by decide)
    (by decide) (by decide) (by decide)

/-- Counterexample to C5 as stated: the wrong-width input "1.1.2024"
does not fail — `Birthday.__init__` accepts it, since strptime matches
`%d` and `%m` against one digit as well as two. -/
theorem c5_counterexample : Birthday.init "1.1.2024" = .ok ⟨"1.1.2024"⟩ := by
  rfl

/-- The upcoming-birthday list in the spec's words (spec-side definition
for the refinement claim about `get_birthdays_per_week`): the
(name, original-birthday-string) pairs, in iteration order of the
mapping, of the records having a birthday whose date with the year
replaced by the current year falls strictly after `now` and on or before
`now` plus 7 days. -/
def upcomingBirthdaysSpec (book : AddressBook) (now : PyDateTime) :
    List (String × String) :=
  book.data.filterMap (fun kr =>
    match kr.2.birthday with
    | none => none
    | some b =>
      match parseDMY b.value with
      | none => none
      | some (d, m, _) =>
        if dtLt now ⟨now.year, m, d, 0⟩ && dtLe ⟨now.year, m, d, 0⟩ (addDays 7 now) then
          some (kr.2.name.value, b.value)
        else none)

/-- Every stored birthday parses and denotes a day that exists in the
current year (the condition under which the birthday scan cannot raise). -/
def birthdaysSafe (book : AddressBook) (now : PyDateTime) : Bool :=
  book.data.all (fun kr =>
    match kr.2.birthday with
    | none => true
    | some b =>
      match parseDMY b.value with
      | none => false
      | some (d, m, _) => decide (d ≤ daysInMonth now.year m))

/-- Under `birthdaysSafe`, the birthday scan returns (rather than raises)
exactly the spec's list. -/
theorem birthdaysAux_safe (now nw : PyDateTime) (l : List (String × Record))
    (hsafe : l.all (fun kr =>
      match kr.2.birthday with
      | none => true
      | some b =>
        match parseDMY b.value with
        | none => false
        | some (d, m, _) => decide (d ≤ daysInMonth now.year m)) = true) :
    birthdaysAux now nw l = .ok (l.filterMap (fun kr =>
      match kr.2.birthday with
      | none => none
      | some b =>
        match parseDMY b.value with
        | none => none
        | some (d, m, _) =>
          if dtLt now ⟨now.year, m, d, 0⟩ && dtLe ⟨now.year, m, d, 0⟩ nw then
            some (kr.2.name.value, b.value)
          else none)) := by
  induction l with
  | nil => rfl
  | cons kr rest ih =>
    rw [List.all_cons, Bool.and_eq_true] at hsafe
    obtain ⟨h1, h2⟩ := hsafe
    unfold birthdaysAux
    rw [List.filterMap_cons]
    cases hb : kr.2.birthday with
    | none =>
      simp only [hb] at h1 ⊢
      exact ih h2
    | some b =>
      simp only [hb] at h1 ⊢
      cases hp : parseDMY b.value with
      | none =>
        rw [hp] at h1
        cases h1
      | some dmy =>
        obtain ⟨d, m, yy⟩ := dmy
        rw [hp] at h1
        simp only [hp]
        have hle : d ≤ daysInMonth now.year m := by
          simpa using h1
        rw [if_pos hle, ih h2]
        by_cases hw : (dtLt now ⟨now.year, m, d, 0⟩
            && dtLe ⟨now.year, m, d, 0⟩ nw) = true
        · simp [hw]
        · simp [hw]

/-- Claim C6 (amended): provided every stored birthday parses and its
day/month exists in the current year (`birthdaysSafe` — the scan
otherwise raises `ValueError` instead of excluding the record),
`get_birthdays_per_week` returns exactly the spec's pairs: the
(name, original-birthday-string) of the records, in insertion order,
whose birthday projected onto the current year falls strictly after
`now` and on or before `now` plus 7 days. -/
theorem c6_birthdays_window (book : AddressBook) (now : PyDateTime)
    (hsafe : birthdaysSafe book now = true) :
    book.get_birthdays_per_week now = .ok (upcomingBirthdaysSpec book now) := by
  unfold birthdaysSafe at hsafe
  unfold AddressBook.get_birthdays_per_week upcomingBirthdaysSpec
  exact birthdaysAux_safe now (addDays 7 now) book.data hsafe

/-- Witness for C6: with "now" = 12 June 2024 (and a nonzero time of
day), the birthday 15.06 is within the next seven days and listed, while
10.06 is not strictly after now and is excluded. -/
theorem c6_witness :
    AddressBook.get_birthdays_per_week
        ⟨[("a", ⟨⟨"a"⟩, [], some ⟨"15.06.1990"⟩⟩),
          ("b", ⟨⟨"b"⟩, [], some ⟨"10.06.1990"⟩⟩)]⟩
        ⟨2024, 6, 12, 55555⟩
      = .ok [("a", "15.06.1990")] := by
  exact (c6_birthdays_window
    ⟨[("a", ⟨⟨"a"⟩, [], some ⟨"15.06.1990"⟩⟩),
      ("b", ⟨⟨"b"⟩, [], some ⟨"10.06.1990"⟩⟩)]⟩
    ⟨2024, 6, 12, 55555⟩ (by rfl)).trans rfl

/-- Counterexample to C6 as stated: a record whose birthday is 29
February 2024, scanned when the current year is the non-leap 2025, is
not excluded — `replace(year=2025)` raises an uncaught `ValueError`, so
`get_birthdays_per_week` returns no list at all. -/
theorem c6_counterexample :
    AddressBook.get_birthdays_per_week
        ⟨[("bob", ⟨⟨"bob"⟩, [], some ⟨"29.02.2024"⟩⟩)]⟩ ⟨2025, 2, 25, 0⟩
      = .error (.valueError "day is out of range for month") := by
  rfl

/-- Claim C3 (amended): for every line whose whitespace split is
non-empty, and provided every stored birthday is scannable in the
current year (`birthdaysSafe`, vacuous for books built by the handlers
except for 29 February entries in a non-leap year), one REPL iteration
produces exactly one printed block and never escapes with an exception.
The empty (or all-whitespace) line is excluded: there `parse_input`
raises an uncaught `ValueError`. -/
theorem c3_repl_step_total (book : AddressBook) (now : PyDateTime) (line : String)
    (hline : pySplit line ≠ [])
    (hsafe : birthdaysSafe book now = true) :
    ∃ out book2 exit2, processLine book now line = .ok (out, book2, exit2) := by
  unfold processLine parse_input
  cases hs : pySplit line with
  | nil => exact absurd hs hline
  | cons cmd args =>
    simp only [hs]
    by_cases h1 : pyLower cmd = "close" ∨ pyLower cmd = "exit"
    · rw [if_pos h1]
      exact ⟨_, _, _, rfl⟩
    · rw [if_neg h1]
      by_cases h2 : pyLower cmd = "hello"
      · rw [if_pos h2]
        exact ⟨_, _, _, rfl⟩
      · rw [if_neg h2]
        by_cases h3 : pyLower cmd = "add"
        · rw [if_pos h3]
          exact ⟨_, _, _, rfl⟩
        · rw [if_neg h3]
          by_cases h4 : pyLower cmd = "change"
          · rw [if_pos h4]
            exact ⟨_, _, _, rfl⟩
          · rw [if_neg h4]
            by_cases h5 : pyLower cmd = "phone"
            · rw [if_pos h5]
              exact ⟨_, _, _, rfl⟩
            · rw [if_neg h5]
              by_cases h6 : pyLower cmd = "all"
              · rw [if_pos h6]
                exact ⟨_, _, _, rfl⟩
              · rw [if_neg h6]
                by_cases h7 : pyLower cmd = "remove"
                · rw [if_pos h7]
                  exact ⟨_, _, _, rfl⟩
                · rw [if_neg h7]
                  by_cases h8 : pyLower cmd = "add-birthday"
                  · rw [if_pos h8]
                    exact ⟨_, _, _, rfl⟩
                  · rw [if_neg h8]
                    by_cases h9 : pyLower cmd = "show-birthday"
                    · rw [if_pos h9]
                      exact ⟨_, _, _, rfl⟩
                    · rw [if_neg h9]
                      by_cases h10 : pyLower cmd = "birthdays"
                      · rw [if_pos h10]
                        unfold birthdaysSafe at hsafe
                        unfold AddressBook.get_birthdays_per_week
                        rw [birthdaysAux_safe now (addDays 7 now) book.data hsafe]
                        exact ⟨_, _, _, rfl⟩
                      · rw [if_neg h10]
                        exact ⟨_, _, _, rfl⟩

/-- Witness for C3 on the line "hello" with an empty book. -/
theorem c3_witness :
    ∃ out book2 exit2,
      processLine ⟨[]⟩ ⟨2024, 1, 1, 0⟩ "hello" = .ok (out, book2, exit2) := by
  exact c3_repl_step_total ⟨[]⟩ ⟨2024, 1, 1, 0⟩ "hello" (by decide) (by rfl)

/-- Counterexample to C3 as stated: on the empty input line,
`cmd, *args = user_input.split()` has nothing to unpack, the
`ValueError` is raised outside any handler, and the REPL iteration
crashes instead of printing a line. -/
theorem c3_counterexample :
    processLine ⟨[]⟩ ⟨2024, 1, 1, 0⟩ ""
      = .error (.valueError "not enough values to unpack") := by
  rfl
